import Mathlib

/-!
Shallow embedding of `folly/Try-inl.h` (the `Try<T>` container, its
`Try<void>` specialization, `makeTryWith`, and `unwrapTryTuple`).

Modelling conventions:
* A raised C++ exception is a value of `folly.Exc`; a function that may
  throw returns `Except Exc _` (or `Option Exc` for `void` functions,
  `some e` meaning "threw `e`", `none` meaning "returned normally").
* `exception_wrapper` is modelled as an optional captured `Exc`
  (the wrapper may be empty); `throw_exception` on an empty wrapper is
  modelled as raising the distinguished `Exc.noExceptionError` (in the
  real library this is the fatal no-exception path, in any case not
  `UsingUninitializedTry`).
* `Try<T>`'s manual tagged union (tag `contains_`, placement-new /
  manual-destructor members `value_` / `e_`) is modelled as a record of
  the tag plus one `Option` per member, `some` meaning the member is
  currently constructed (alive).  Destroying a member sets it to `none`;
  reading a destroyed member yields `none`.
* Move construction/assignment never throws (the source functions are
  `noexcept`), so the model functions are total and have no exception
  channel; they return the pair (destination, source-after-move).  A
  moved-from member is still a constructed object of its type; the model
  keeps its old payload (one admissible instance of "valid but
  unspecified").
* Zero-argument operations passed to `makeTryWith` are modelled as state
  transformers `σ → σ × result` so that "invoked exactly once" is
  observable as exactly one application of the transformer.
-/

namespace folly

/-- A C++ exception in flight: a std-recognized failure with category and
message, an arbitrary other failure identified by a number, the
`UsingUninitializedTry` error thrown for access to an empty `Try`, or the
fatal outcome of re-raising an empty `exception_wrapper`. -/
inductive Exc where
  | failure (category message : String)
  | generic (id : Nat)
  | usingUninitializedTry
  | noExceptionError
deriving DecidableEq, Repr

/-- The opaque captured-failure collaborator `exception_wrapper`: it holds
at most one captured failure. -/
structure ExceptionWrapper where
  item_ : Option Exc
deriving DecidableEq, Repr

/-- An `exception_wrapper` holding no failure. -/
def ExceptionWrapper.emptyWrapper : ExceptionWrapper := ⟨none⟩

/-- `exception_wrapper::throw_exception`: re-raises the captured failure;
on an empty wrapper it reaches the fatal no-exception path, modelled as
the distinguished `Exc.noExceptionError`. -/
def ExceptionWrapper.throw_exception (w : ExceptionWrapper) : Exc :=
  match w.item_ with
  | some e => e
  | none => Exc.noExceptionError

/-- The three-way state tag of `Try<T>` (`Try<T>::Contains`). -/
inductive Contains where
  | VALUE
  | EXCEPTION
  | NOTHING
deriving DecidableEq, Repr

/-- `Try<T>`: the tag `contains_` plus the two union members; a member is
`some _` exactly while it is constructed (alive). -/
structure Try (T : Type) where
  contains_ : Contains
  value_ : Option T
  e_ : Option ExceptionWrapper
deriving DecidableEq, Repr

/-- Tag/storage consistency invariant of the manual tagged union: the
member named by the tag is alive, the other is not, and an Empty `Try`
has no live member. -/
def Try.wf {T : Type} (t : Try T) : Prop :=
  (t.contains_ = Contains.VALUE ↔ t.value_.isSome = true) ∧
  (t.contains_ = Contains.EXCEPTION ↔ t.e_.isSome = true)

/-- The destructor (`Try<T>::~Try`) is safe to run: whichever member the
tag names is actually alive, so `value_.~T()` / `e_.~exception_wrapper()`
acts on a constructed object. -/
def Try.destructorSafe {T : Type} (t : Try T) : Prop :=
  (t.contains_ = Contains.VALUE → t.value_.isSome = true) ∧
  (t.contains_ = Contains.EXCEPTION → t.e_.isSome = true)

/-- Effect of `Try<T>::~Try()` on the members (source lines 93-100): the
active member is destroyed; the tag bits are left behind untouched. -/
def Try.dtorRun {T : Type} (t : Try T) : Try T :=
  { contains_ := t.contains_, value_ := none, e_ := none }

/-- Modelled from the spec: the `Try<T>` default constructor is declared
in `folly/Try.h`, which is not part of the sources; per the spec the
initial state on default construction is Empty, with no live member. -/
def Try.mkDefault (T : Type) : Try T :=
  { contains_ := Contains.NOTHING, value_ := none, e_ := none }

/-- Modelled from the spec: the `Try<T>` value constructor is declared in
`folly/Try.h`, which is not part of the sources; per the spec it stores
the value in the inline union member and sets the state to HasValue. -/
def Try.fromValue {T : Type} (v : T) : Try T :=
  { contains_ := Contains.VALUE, value_ := some v, e_ := none }

/-- Modelled from the spec: the `Try<T>` constructor from a captured
failure is declared in `folly/Try.h`, which is not part of the sources;
per the spec it stores the failure object and sets the state to
HasError. -/
def Try.fromException {T : Type} (w : ExceptionWrapper) : Try T :=
  { contains_ := Contains.EXCEPTION, value_ := none, e_ := some w }

/-- `Try<T>::Try(Try<T>&&)` (source lines 26-33): copies the tag, then
placement-moves the active member; the source keeps its (moved-from but
still constructed) member.  The function is `noexcept`: the model is
total, with no exception channel.  Returns (destination, source after
the move). -/
def Try.moveCtor {T : Type} (t : Try T) : Try T × Try T :=
  ({ contains_ := t.contains_,
     value_ := if t.contains_ = Contains.VALUE then t.value_ else none,
     e_ := if t.contains_ = Contains.EXCEPTION then t.e_ else none },
   t)

/-- `Try<T>::operator=(Try<T>&&)` (source lines 49-63): if `this == &t`
(`sameObject`), return immediately leaving both unchanged; otherwise run
`this->~Try()`, copy the tag and placement-move the active member.
`noexcept`, hence total.  Returns (destination, source after the
assignment). -/
def Try.moveAssignStep {T : Type} (self src : Try T) (sameObject : Bool) :
    Try T × Try T :=
  if sameObject then (self, src)
  else
    ({ contains_ := src.contains_,
       value_ := if src.contains_ = Contains.VALUE then src.value_ else none,
       e_ := if src.contains_ = Contains.EXCEPTION then src.e_ else none },
     src)

/-- The member-initializing body shared by `Try<T>::Try(const Try<T>&)`
(source lines 65-76) and the tail of copy-assignment: copy the source's
tag and copy-construct the member the source's tag names from the
source's corresponding member.  Reading a destroyed member yields no
live copy. -/
def Try.copyCtorFrom {T : Type} (src : Try T) : Try T :=
  { contains_ := src.contains_,
    value_ := if src.contains_ = Contains.VALUE then src.value_ else none,
    e_ := if src.contains_ = Contains.EXCEPTION then src.e_ else none }

/-- `Try<T>::operator=(const Try<T>&)` (source lines 78-91) on distinct
objects: `this->~Try()` destroys the destination's active member, after
which the destination is rebuilt purely from the source. -/
def Try.copyAssign {T : Type} (_self src : Try T) : Try T :=
  Try.copyCtorFrom src

/-- `Try<T>::operator=(const Try<T>&)` (source lines 78-91) when the
source aliases the destination (`t = t`): there is no self-assignment
check, so `this->~Try()` runs first and the subsequent member reads see
the already-destroyed members of the very same object. -/
def Try.copyAssignSelf {T : Type} (t : Try T) : Try T :=
  Try.copyCtorFrom (Try.dtorRun t)

/-- `Try<T>::throwIfFailed` (source lines 126-136): VALUE returns,
EXCEPTION re-raises via `e_.throw_exception()`, the default (NOTHING)
case raises `UsingUninitializedTry`.  `some e` models "throws `e`",
`none` models a normal return. -/
def Try.throwIfFailed {T : Type} (t : Try T) : Option Exc :=
  match t.contains_ with
  | Contains.VALUE => none
  | Contains.EXCEPTION =>
      some ((t.e_.getD ExceptionWrapper.emptyWrapper).throw_exception)
  | Contains.NOTHING => some Exc.usingUninitializedTry

/-- The `Try<T>::value` accessor overloads (source lines 102-124): run
`throwIfFailed()`, then return the `value_` member (all four overloads
share this logic; they differ only in reference kind). -/
def Try.value {T : Type} (t : Try T) : Except Exc (Option T) :=
  match t.throwIfFailed with
  | some ex => Except.error ex
  | none => Except.ok t.value_

/-- `Try<void>`: a boolean `hasValue_` flag plus the captured-failure
member `e_` (which may itself be an empty wrapper), exactly the state
read by `Try<void>::throwIfFailed` in the sources. -/
structure TryVoid where
  hasValue_ : Bool
  e_ : ExceptionWrapper
deriving DecidableEq, Repr

/-- Modelled from the spec: the `Try<void>` default constructor is
declared in `folly/Try.h`, which is not part of the sources; per spec
section 4.3 a successful void operation yields a has-value `Try<void>`
through `return Try<void>()`, so the default constructor produces the
has-value state with no captured failure. -/
def TryVoid.mkDefault : TryVoid :=
  { hasValue_ := true, e_ := ExceptionWrapper.emptyWrapper }

/-- Modelled from the spec: the `Try<void>` constructor from a captured
failure is declared in `folly/Try.h`, which is not part of the sources;
per the spec it produces the error state holding that wrapper. -/
def TryVoid.fromException (w : ExceptionWrapper) : TryVoid :=
  { hasValue_ := false, e_ := w }

/-- Modelled from the spec: `Try<void>::hasValue` is declared in
`folly/Try.h`, which is not part of the sources; it reports the
"has a value" flag. -/
def TryVoid.hasValue (t : TryVoid) : Bool := t.hasValue_

/-- Modelled from the spec: `Try<void>::hasException` is declared in
`folly/Try.h`, which is not part of the sources; per the spec the
captured-failure storage is active only in the error state, so the
error state holds exactly when no value was produced and a captured
failure is present. -/
def TryVoid.hasException (t : TryVoid) : Bool :=
  !t.hasValue_ && t.e_.item_.isSome

/-- Modelled from the spec: `Try<void>::exception` is declared in
`folly/Try.h`, which is not part of the sources; it returns the stored
captured-failure wrapper. -/
def TryVoid.exception (t : TryVoid) : ExceptionWrapper := t.e_

/-- `Try<void>::throwIfFailed` (source lines 138-142): if the
"has a value" flag is not set, re-raise `e_` via
`e_.throw_exception()`; otherwise return normally.  Note that this is
the only raising path: it branches solely on `hasValue_`. -/
def TryVoid.throwIfFailed (t : TryVoid) : Option Exc :=
  if !t.hasValue_ then some (t.e_.throw_exception) else none

/-- `Try<T>::Try(Try<void> const&)` for `T = Unit` (source lines 35-47):
start from NOTHING; if the source has a value, become VALUE holding a
default-constructed sentinel `T()`; else if it has an exception, become
EXCEPTION holding `t.exception()`; else stay NOTHING. -/
def Try.fromTryVoid (t : TryVoid) : Try Unit :=
  if t.hasValue then
    { contains_ := Contains.VALUE, value_ := some (), e_ := none }
  else if t.hasException then
    { contains_ := Contains.EXCEPTION, value_ := none, e_ := some t.exception }
  else
    { contains_ := Contains.NOTHING, value_ := none, e_ := none }

/-- `makeTryWith` (value-returning overload, source lines 144-157): call
`f()` once; on a normal return build `Try<R>` from the returned value;
on a throw capture the in-flight failure into an `exception_wrapper`
(both `catch` arms capture the current exception) and build `Try<R>` in
the error state.  `f` is a state transformer so that "invoked exactly
once" is visible as exactly one application. -/
def makeTryWith {σ R : Type} (f : σ → σ × Except Exc R) (s : σ) :
    σ × Try R :=
  match f s with
  | (s2, Except.ok v) => (s2, Try.fromValue v)
  | (s2, Except.error ex) =>
      (s2, Try.fromException (ExceptionWrapper.mk (some ex)))

/-- `makeTryWith` (void overload, source lines 159-171): call `f()` once;
on a normal return produce `Try<void>()` (the has-value state); on a
throw capture the in-flight failure and produce the error-state
`Try<void>`. -/
def makeTryWithVoid {σ : Type} (f : σ → σ × Option Exc) (s : σ) :
    σ × TryVoid :=
  match f s with
  | (s2, none) => (s2, TryVoid.mkDefault)
  | (s2, some ex) => (s2, TryVoid.fromException (ExceptionWrapper.mk (some ex)))

/-- Instrumented invocation of one position's `value()` accessor during
tuple unwrap: records the position index as invoked and yields the
accessor's outcome. -/
def Try.valueInvoked {T : Type} (i : Nat) (t : Try T) :
    List Nat × Except Exc (Option T) :=
  ([i], t.value)

/-- `try_detail::unwrapTryTupleImpl` at arity 3 (source lines 185-190):
`ReturnType{get<0>(t).value(), get<1>(t).value(), get<2>(t).value()}` —
a braced-init-list evaluates left to right and an escaping exception
aborts the whole construction, so later accessors are not invoked.  The
first component is the list of positions whose accessor was invoked, in
invocation order. -/
def unwrapTryTupleImpl {A B C : Type} (ta : Try A) (tb : Try B) (tc : Try C) :
    List Nat × Except Exc (Option A × Option B × Option C) :=
  let r0 := Try.valueInvoked 0 ta
  match r0.2 with
  | Except.error ex => (r0.1, Except.error ex)
  | Except.ok a =>
    let r1 := Try.valueInvoked 1 tb
    match r1.2 with
    | Except.error ex => (r0.1 ++ r1.1, Except.error ex)
    | Except.ok b =>
      let r2 := Try.valueInvoked 2 tc
      match r2.2 with
      | Except.error ex => (r0.1 ++ r1.1 ++ r2.1, Except.error ex)
      | Except.ok c => (r0.1 ++ r1.1 ++ r2.1, Except.ok (a, b, c))

/-- `unwrapTryTuple` at arity 3 (source lines 193-198): builds the index
sequence `0, 1, 2` and forwards to `unwrapTryTupleImpl`. -/
def unwrapTryTuple3 {A B C : Type} (ta : Try A) (tb : Try B) (tc : Try C) :
    List Nat × Except Exc (Option A × Option B × Option C) :=
  unwrapTryTupleImpl ta tb tc

/-- C1 counterexample: a `Try<void>` in the Empty state (no value
produced, no captured failure) does not raise `UsingUninitializedTry`
from `throwIfFailed`; the helper branches only on `hasValue_` and
re-raises the empty wrapper, reaching the fatal no-exception path
instead. -/
theorem tryVoidEmptyNotUninitialized :
    (TryVoid.mk false ExceptionWrapper.emptyWrapper).throwIfFailed =
      some Exc.noExceptionError ∧
    Exc.noExceptionError ≠ Exc.usingUninitializedTry := by
  decide

/-- C1 (amended): for the generic `Try<T>` in the Empty state, the value
accessor (equivalently `throwIfFailed`) raises exactly the
uninitialized-access error `UsingUninitializedTry` — it never returns a
value and never re-raises another failure.  `Try<void>::throwIfFailed`,
however, re-raises whatever the stored wrapper holds whenever no value
is present, so an Empty `Try<void>` reaches the empty-wrapper error
rather than `UsingUninitializedTry`. -/
theorem emptyAccessRaisesUninitialized {T : Type} (t : Try T)
    (h : t.contains_ = Contains.NOTHING) :
    t.value = Except.error Exc.usingUninitializedTry ∧
    t.throwIfFailed = some Exc.usingUninitializedTry ∧
    ∀ tv : TryVoid, tv.hasValue_ = false →
      tv.throwIfFailed = some (tv.e_.throw_exception) := by
  refine ⟨?_, ?_, ?_⟩
  · simp [Try.value, Try.throwIfFailed, h]
  · simp [Try.throwIfFailed, h]
  · intro tv hv
    simp [TryVoid.throwIfFailed, hv]

/-- Witness for C1 (amended) at the default-constructed `Try Nat` and an
Empty `Try<void>`. -/
theorem emptyAccessRaisesUninitializedWitness :
    (Try.mkDefault Nat).value = Except.error Exc.usingUninitializedTry ∧
    (TryVoid.mk false ExceptionWrapper.emptyWrapper).throwIfFailed =
      some ((ExceptionWrapper.mk none).throw_exception) := by
  have h := emptyAccessRaisesUninitialized (Try.mkDefault Nat) rfl
  exact ⟨h.1, h.2.2 (TryVoid.mk false ExceptionWrapper.emptyWrapper) rfl⟩

/-- C2: constructing a `Try<T>` from a value `v` and calling the value
accessor returns the value `v` and raises no failure; the state is
HasValue. -/
theorem valueRoundtrip {T : Type} (v : T) :
    (Try.fromValue v).value = Except.ok (some v) ∧
    (Try.fromValue v).contains_ = Contains.VALUE ∧
    (Try.fromValue v).throwIfFailed = none := by
  exact ⟨rfl, rfl, rfl⟩

/-- C3: constructing a `Try<T>` from a captured failure `ex` and calling
the value accessor re-raises exactly `ex` (same category/message, since
`Exc` equality compares them) — it neither returns a value nor raises a
different failure. -/
theorem exceptionRoundtrip (T : Type) (ex : Exc) :
    (Try.fromException (T := T) (ExceptionWrapper.mk (some ex))).value =
      Except.error ex ∧
    (Try.fromException (T := T) (ExceptionWrapper.mk (some ex))).contains_ =
      Contains.EXCEPTION := by
  exact ⟨rfl, rfl⟩

/-- C4: for a well-formed source in any of the three states, move
construction and move assignment (both `noexcept`, modelled as total
functions with no exception channel) produce a destination with exactly
the source's tag and payload, and leave the source with its members
still constructed, hence safely destructible; self-move-assignment is a
no-op on both sides. -/
theorem moveAdoptsExactState {T : Type} (t self : Try T) (h : t.wf) :
    (Try.moveCtor t).1 = t ∧
    (Try.moveCtor t).2.destructorSafe ∧
    (Try.moveAssignStep self t false).1 = t ∧
    (Try.moveAssignStep self t false).2.destructorSafe ∧
    Try.moveAssignStep t t true = (t, t) := by
  obtain ⟨c, v, e⟩ := t
  obtain ⟨h1, h2⟩ := h
  cases c <;> cases v <;> cases e <;>
    simp_all [Try.moveCtor, Try.moveAssignStep, Try.destructorSafe]

/-- Witness for C4 at a concrete HasValue source. -/
theorem moveAdoptsExactStateWitness :
    (Try.moveCtor (Try.fromValue 7)).1 = Try.fromValue 7 ∧
    (Try.moveAssignStep (Try.mkDefault Nat) (Try.fromValue 7) false).1 =
      Try.fromValue 7 := by
  have h := moveAdoptsExactState (Try.fromValue 7) (Try.mkDefault Nat)
    (by constructor <;> simp [Try.fromValue])
  exact ⟨h.1, h.2.2.1⟩

/-- C5: converting a `Try<void>` to the value-bearing `Try<Unit>` maps
states exactly: has-value goes to HasValue holding the sentinel `()`,
error goes to HasError holding the same captured wrapper, and the
remaining (Empty) case goes to Empty. -/
theorem tryVoidConversionExact (tv : TryVoid) :
    (tv.hasValue = true →
      Try.fromTryVoid tv =
        { contains_ := Contains.VALUE, value_ := some (), e_ := none }) ∧
    (tv.hasValue = false → tv.hasException = true →
      Try.fromTryVoid tv =
        { contains_ := Contains.EXCEPTION, value_ := none,
          e_ := some tv.e_ }) ∧
    (tv.hasValue = false → tv.hasException = false →
      Try.fromTryVoid tv =
        { contains_ := Contains.NOTHING, value_ := none, e_ := none }) := by
  refine ⟨?_, ?_, ?_⟩
  · intro h
    simp [Try.fromTryVoid, h]
  · intro h h2
    simp [Try.fromTryVoid, TryVoid.exception, h, h2]
  · intro h h2
    simp [Try.fromTryVoid, h, h2]

/-- Witness for C5 at a concrete failed `Try<void>`. -/
theorem tryVoidConversionExactWitness :
    Try.fromTryVoid (TryVoid.mk false (ExceptionWrapper.mk (some (Exc.generic 3)))) =
      { contains_ := Contains.EXCEPTION, value_ := none,
        e_ := some (ExceptionWrapper.mk (some (Exc.generic 3))) } :=
  (tryVoidConversionExact
    (TryVoid.mk false (ExceptionWrapper.mk (some (Exc.generic 3))))).2.1
    (by decide) (by decide)

/-- C6: if the operation, applied once to the current state, returns a
value `v` without raising, `makeTryWith` produces exactly the state of
that single invocation together with a `Try` in the HasValue state whose
contained value is `v` (accessing it returns `v` with no failure). -/
theorem makeTryWithSuccess {σ R : Type} (op : σ → σ × Except Exc R)
    (s s2 : σ) (v : R) (h : op s = (s2, Except.ok v)) :
    makeTryWith op s = (s2, Try.fromValue v) ∧
    (makeTryWith op s).2.contains_ = Contains.VALUE ∧
    (makeTryWith op s).2.value = Except.ok (some v) := by
  refine ⟨?_, ?_, ?_⟩ <;> simp [makeTryWith, h, Try.fromValue, Try.value,
    Try.throwIfFailed]

/-- Witness for C6: an operation that bumps a call counter and returns 7;
the final counter shows exactly one invocation. -/
theorem makeTryWithSuccessWitness :
    makeTryWith (fun n : Nat => (n + 1, Except.ok (7 : Nat))) 0 =
      (1, Try.fromValue 7) :=
  (makeTryWithSuccess (fun n : Nat => (n + 1, Except.ok (7 : Nat))) 0 1 7 rfl).1

/-- C7: if the operation raises `ex`, neither overload of `makeTryWith`
propagates it (both model functions return a `Try` totally): the
value-returning overload yields a HasError `Try` whose value accessor
re-raises exactly `ex`, and the void overload yields a `Try<void>` whose
re-raise helper raises exactly `ex`. -/
theorem makeTryWithFailure {σ R : Type} (op : σ → σ × Except Exc R)
    (opv : σ → σ × Option Exc) (s s2 s3 : σ) (ex : Exc)
    (h : op s = (s2, Except.error ex)) (hv : opv s = (s3, some ex)) :
    makeTryWith op s = (s2, Try.fromException (ExceptionWrapper.mk (some ex))) ∧
    (makeTryWith op s).2.contains_ = Contains.EXCEPTION ∧
    (makeTryWith op s).2.value = Except.error ex ∧
    makeTryWithVoid opv s =
      (s3, TryVoid.fromException (ExceptionWrapper.mk (some ex))) ∧
    (makeTryWithVoid opv s).2.throwIfFailed = some ex := by
  refine ⟨?_, ?_, ?_, ?_, ?_⟩ <;>
    simp [makeTryWith, makeTryWithVoid, h, hv, Try.fromException, Try.value,
      Try.throwIfFailed, TryVoid.fromException, TryVoid.throwIfFailed,
      ExceptionWrapper.throw_exception]

/-- Witness for C7 at a concrete raising operation. -/
theorem makeTryWithFailureWitness :
    (makeTryWith (fun n : Nat => ((n + 1, Except.error (Exc.generic 5)) : Nat × Except Exc Nat)) 0).2.value =
      Except.error (Exc.generic 5) ∧
    (makeTryWithVoid (fun n : Nat => (n + 1, some (Exc.generic 5))) 0).2.throwIfFailed =
      some (Exc.generic 5) := by
  have h := makeTryWithFailure
    (fun n : Nat => ((n + 1, Except.error (Exc.generic 5)) : Nat × Except Exc Nat))
    (fun n : Nat => (n + 1, some (Exc.generic 5))) 0 1 1 (Exc.generic 5) rfl rfl
  exact ⟨h.2.2.1, h.2.2.2.2⟩

/-- C8: on a 3-tuple of all-HasValue `Try`s, `unwrapTryTuple` invokes
every position's accessor in order 0, 1, 2 and returns the same-shaped
tuple of the contained plain values in position order, raising no
failure. -/
theorem unwrapTryTupleAllValues {A B C : Type} (a : A) (b : B) (c : C) :
    unwrapTryTuple3 (Try.fromValue a) (Try.fromValue b) (Try.fromValue c) =
      ([0, 1, 2], Except.ok (some a, some b, some c)) := by
  rfl

/-- C9: unwrap evaluates positions left to right and short-circuits on
the first position that is not HasValue: if position 0 raises, only
accessor 0 is invoked; if position 0 is HasValue and position 1 raises
`ex`, accessors 0 and 1 are invoked, the whole call raises exactly `ex`,
no partial tuple is produced, and position 2's accessor is never
invoked — for every third component whatsoever; and if positions 0 and 1
are HasValue while position 2 raises `ex`, all three accessors are
invoked in order and the whole call raises exactly `ex`, discarding the
two values already extracted (no partial tuple is produced). -/
theorem unwrapTryTupleShortCircuit {A B C : Type}
    (ta : Try A) (tb : Try B) (tc : Try C) (ex : Exc) :
    (ta.throwIfFailed = some ex →
      unwrapTryTuple3 ta tb tc = ([0], Except.error ex)) ∧
    (ta.contains_ = Contains.VALUE → tb.throwIfFailed = some ex →
      unwrapTryTuple3 ta tb tc = ([0, 1], Except.error ex)) ∧
    (ta.contains_ = Contains.VALUE → tb.contains_ = Contains.VALUE →
      tc.throwIfFailed = some ex →
      unwrapTryTuple3 ta tb tc = ([0, 1, 2], Except.error ex)) := by
  refine ⟨?_, ?_, ?_⟩
  · intro h
    simp [unwrapTryTuple3, unwrapTryTupleImpl, Try.valueInvoked, Try.value, h]
  · intro h0 h1
    have hta : ta.throwIfFailed = none := by
      simp [Try.throwIfFailed, h0]
    simp [unwrapTryTuple3, unwrapTryTupleImpl, Try.valueInvoked, Try.value,
      hta, h1]
  · intro h0 h1 h2
    have hta : ta.throwIfFailed = none := by
      simp [Try.throwIfFailed, h0]
    have htb : tb.throwIfFailed = none := by
      simp [Try.throwIfFailed, h1]
    simp [unwrapTryTuple3, unwrapTryTupleImpl, Try.valueInvoked, Try.value,
      hta, htb, h2]

/-- Witness for C9, two concrete tuples: position 0 HasValue, position 1
HasError and position 2 an Empty `Try` whose accessor would raise a
different error if it were invoked — the trace stops at position 1 and
the result is position 1's failure; and positions 0 and 1 HasValue with
position 2 HasError — all three accessors run and position 2's failure
is raised with no partial tuple. -/
theorem unwrapTryTupleShortCircuitWitness :
    unwrapTryTuple3 (Try.fromValue (1 : Nat))
      (Try.fromException (T := Nat) (ExceptionWrapper.mk (some (Exc.generic 9))))
      (Try.mkDefault Nat) =
      ([0, 1], Except.error (Exc.generic 9)) ∧
    unwrapTryTuple3 (Try.fromValue (1 : Nat)) (Try.fromValue (2 : Nat))
      (Try.fromException (T := Nat) (ExceptionWrapper.mk (some (Exc.generic 4)))) =
      ([0, 1, 2], Except.error (Exc.generic 4)) :=
  ⟨(unwrapTryTupleShortCircuit (Try.fromValue (1 : Nat))
      (Try.fromException (ExceptionWrapper.mk (some (Exc.generic 9))))
      (Try.mkDefault Nat) (Exc.generic 9)).2.1 rfl rfl,
   (unwrapTryTupleShortCircuit (Try.fromValue (1 : Nat)) (Try.fromValue (2 : Nat))
      (Try.fromException (ExceptionWrapper.mk (some (Exc.generic 4))))
      (Exc.generic 4)).2.2 rfl rfl rfl⟩

/-- C10: copy-assignment has no self-assignment check: on `t = t` with a
live value, it first destroys its own active member and then
copy-constructs from the same, already-destroyed member, leaving the tag
claiming VALUE while the value member is dead — the tag/storage
invariant is violated.  Move-assignment, by contrast, short-circuits on
self-assignment and leaves the object untouched. -/
theorem copyAssignNoSelfCheck {T : Type} (t : Try T) (v : T)
    (hc : t.contains_ = Contains.VALUE) (_hv : t.value_ = some v) :
    (Try.copyAssignSelf t).contains_ = Contains.VALUE ∧
    (Try.copyAssignSelf t).value_ = none ∧
    ¬ (Try.copyAssignSelf t).wf ∧
    Try.moveAssignStep t t true = (t, t) := by
  refine ⟨?_, ?_, ?_, ?_⟩
  · simp [Try.copyAssignSelf, Try.copyCtorFrom, Try.dtorRun, hc]
  · simp [Try.copyAssignSelf, Try.copyCtorFrom, Try.dtorRun, hc]
  · intro hwf
    have h1 := hwf.1.mp (by simp [Try.copyAssignSelf, Try.copyCtorFrom, Try.dtorRun, hc])
    simp [Try.copyAssignSelf, Try.copyCtorFrom, Try.dtorRun, hc] at h1
  · simp [Try.moveAssignStep]

/-- Witness for C10 at a concrete `Try Nat` holding 5. -/
theorem copyAssignNoSelfCheckWitness :
    (Try.copyAssignSelf (Try.fromValue (5 : Nat))).contains_ = Contains.VALUE ∧
    (Try.copyAssignSelf (Try.fromValue (5 : Nat))).value_ = none :=
  ⟨(copyAssignNoSelfCheck (Try.fromValue (5 : Nat)) 5 rfl rfl).1,
   (copyAssignNoSelfCheck (Try.fromValue (5 : Nat)) 5 rfl rfl).2.1⟩

end folly
